import Mathlib

/-!
Verification of the scan-classify-act pipeline of the SloccyEmailOllamaLabler
repository. The definitions below are a shallow embedding of the Python
sources under src/app (poller.py, llm_client.py, gmail_client.py, db.py,
config.py): pure logic becomes Lean functions, the sqlite tables become
explicit lists threaded through the functions, and the outcomes of external
network calls (the Ollama backend, the Gmail provider) are oracle inputs.
-/

namespace Labeler

/-! ## Data model (db.py tables) -/

/-- Row of the prompts table (db.py lines 35-48): a classification rule.
The sqlite integer flags are modelled as Bool, the nullable account scope as
Option. The id column is the integer primary key. -/
structure Prompt where
  id : Int
  name : String
  instructions : String
  label_name : String
  active : Bool
  action_archive : Bool
  action_spam : Bool
  action_trash : Bool
  sort_order : Int
  stop_processing : Bool
  account_id : Option Int
deriving Repr, DecidableEq

/-- An email as returned by gmail_client.fetch_recent_emails (lines 103-109):
id, subject, sender, snippet and (truncated) body. -/
structure Email where
  id : String
  subject : String
  sender : String
  snippet : String
  body : String
deriving Repr, DecidableEq

/-! ## ProcessedRecord (db.py lines 55-60, 222-236)

The processed_emails table is the list of (account_id, message_id) pairs;
the UNIQUE(account_id, message_id) constraint makes the insert in
mark_processed an insert-if-absent (INSERT OR IGNORE). -/

/-- Embeds db.is_processed (db.py lines 222-228): membership test of the
(account id, message id) pair in the processed_emails table. -/
def is_processed (ps : List (Int × String)) (aid : Int) (mid : String) : Bool :=
  ps.any (fun r => r.1 == aid && r.2 == mid)

/-- Embeds db.mark_processed (db.py lines 231-236): INSERT OR IGNORE under
the UNIQUE(account_id, message_id) constraint, i.e. insert-if-absent. -/
def mark_processed (ps : List (Int × String)) (aid : Int) (mid : String) :
    List (Int × String) :=
  if is_processed ps aid mid then ps else ps ++ [(aid, mid)]

/-! ## RuleSet (db.py list_prompts, lines 159-176) -/

/-- The order modelling ORDER BY sort_order ASC, id ASC in db.list_prompts:
lexicographic on (sort_order, id). Since id is the primary key, this order
is total and antisymmetric on table rows, so the sorted output is unique
and the choice of sorting algorithm below is immaterial. -/
def promptLEP (a b : Prompt) : Prop :=
  a.sort_order < b.sort_order ∨ (a.sort_order = b.sort_order ∧ a.id ≤ b.id)

instance : DecidableRel promptLEP := fun a b =>
  decidable_of_iff
    (a.sort_order < b.sort_order ∨ (a.sort_order = b.sort_order ∧ a.id ≤ b.id))
    Iff.rfl

instance : IsTrans Prompt promptLEP := by
  constructor
  intro a b c hab hbc
  unfold promptLEP at *
  omega

instance : IsTotal Prompt promptLEP := by
  constructor
  intro a b
  unfold promptLEP
  omega

/-- Embeds db.list_prompts(account_id) (db.py lines 159-176): rows whose
account_id equals the given account or is NULL, ordered by
sort_order ASC, id ASC. -/
def list_prompts (table : List Prompt) (aid : Int) : List Prompt :=
  List.insertionSort promptLEP
    (table.filter (fun p => p.account_id == some aid || p.account_id == none))

/-- Embeds the filter at poller.py line 51: active prompts for the account,
in the order produced by db.list_prompts. -/
def active_prompts (table : List Prompt) (aid : Int) : List Prompt :=
  (list_prompts table aid).filter (fun p => p.active)

/-! ## Classifier (llm_client.classify_email_batch, lines 26-108)

The single HTTP round trip to the Ollama backend is modelled by an oracle
value: the request either fails (requests exception: network error, timeout,
raise_for_status), or yields content that json.loads rejects, or yields
content parsing to a JSON value. The code-fence stripping of lines 82-87
happens before json.loads and is absorbed into the oracle. -/

/-- JSON values, as produced by json.loads. Numbers are modelled as the
integers (the only numerals the classifier protocol involves). -/
inductive Json where
  | null
  | bool (b : Bool)
  | num (n : Int)
  | str (s : String)
  | arr (xs : List Json)
  | obj (kvs : List (String × Json))
deriving Repr

/-- Outcome of the backend round trip, as seen after code-fence stripping. -/
inductive BackendResponse where
  | failure
  | malformed
  | parsed (j : Json)

/-- Python truthiness bool(v) on a decoded JSON value: None, False, 0, the
empty string, the empty list and the empty dict are falsy, everything else
is truthy. This embeds the coercion at llm_client.py line 91. -/
def pyTruthy : Json → Bool
  | .null => false
  | .bool b => b
  | .num n => n != 0
  | .str s => s != ""
  | .arr xs => !xs.isEmpty
  | .obj kvs => !kvs.isEmpty

/-- Python int(k) on a string key (llm_client.py line 91): optional
surrounding whitespace, optional sign, then decimal digits; anything else
raises ValueError, modelled as none. Digit-grouping underscores are not
modelled. -/
def pyIntOfStr (s : String) : Option Int :=
  let t :=
    ((s.toList.dropWhile fun c => c.isWhitespace).reverse.dropWhile
      fun c => c.isWhitespace).reverse
  match t with
  | [] => none
  | c :: rest =>
    let signed : Bool × List Char :=
      if c = '-' then (true, rest) else if c = '+' then (false, rest) else (false, t)
    if !signed.2.isEmpty && signed.2.all (fun d => d.isDigit) then
      let n : Nat := signed.2.foldl (fun acc d => acc * 10 + (d.toNat - 48)) 0
      some (if signed.1 then -(n : Int) else (n : Int))
    else none

/-- Embeds the dict comprehension at llm_client.py line 91 applied to the
parsed JSON: it requires a JSON object (items() on anything else raises,
caught at line 95), coerces each key with int() (a non-integer key raises,
caught at line 95) and each value with bool(). -/
def parse_decisions : Json → Option (List (Int × Bool))
  | .obj kvs => kvs.mapM (fun kv => (pyIntOfStr kv.1).map (fun n => (n, pyTruthy kv.2)))
  | _ => none

/-- Lookup in a Python dict built from an association list where a later
duplicate key overwrites the earlier one, with a default: embeds
dict.get(key, default) as used at poller.py line 98. -/
def pyDictGet (m : List (Int × Bool)) (k : Int) (d : Bool) : Bool :=
  match (m.filter (fun kv => kv.1 == k)).getLast? with
  | some kv => kv.2
  | none => d

/-- The default mapping returned on every failure path of
classify_email_batch (llm_client.py lines 98, 103, 108): every prompt id
maps to False. -/
def default_decisions (prompts : List Prompt) : List (Int × Bool) :=
  prompts.map (fun p => (p.id, false))

/-- Embeds llm_client.classify_email_batch (lines 26-108). Returns the
decision mapping together with the number of HTTP requests issued to the
backend. An empty prompt list returns early with no request (line 31); the
single requests.post happens once on every other path; a request failure,
unparseable content, non-object JSON or a non-integer key all degrade to
default_decisions; a parsed object yields the int(k)/bool(v) mapping. The
email argument only shapes the request text, never the control flow. -/
def classify_email_batch (email : Email) (prompts : List Prompt)
    (resp : BackendResponse) : List (Int × Bool) × Nat :=
  if prompts.isEmpty then ([], 0)
  else
    match resp with
    | .failure => (default_decisions prompts, 1)
    | .malformed => (default_decisions prompts, 1)
    | .parsed j =>
      match parse_decisions j with
      | some m => (m, 1)
      | none => (default_decisions prompts, 1)

/-! ## ActionExecutor (poller.py lines 100-122)

For a matched rule the code applies the Gmail label, then walks the
if/elif/elif chain over the three action flags, then checks
stop_processing. The provider calls are recorded as a trace; the label call
is recorded by label name (the provider label id is obtained from the
per-scan cache keyed by exactly this name). -/

/-- A Gmail mutation issued for one email. -/
inductive GmailAction where
  | applyLabel (labelName : String)
  | spam
  | trash
  | archive
deriving Repr, DecidableEq

/-- Does the action move or delete mail (anything but labeling)? -/
def isDestructive : GmailAction → Bool
  | .applyLabel _ => false
  | _ => true

/-- Embeds the if/elif/elif chain at poller.py lines 110-118: at most one of
spam, trash, archive runs, with spam checked first and archive last. -/
def destructive_actions (p : Prompt) : List GmailAction :=
  if p.action_spam then [GmailAction.spam]
  else if p.action_trash then [GmailAction.trash]
  else if p.action_archive then [GmailAction.archive]
  else []

/-- Provider calls issued for one matched rule (poller.py lines 107-118):
the label is applied first (line 107), then the destructive chain runs. -/
def rule_actions (p : Prompt) : List GmailAction :=
  GmailAction.applyLabel p.label_name :: destructive_actions p

/-! ## Per-email rule loop (poller.py lines 92-132)

The loop walks the prompts in the order delivered by db.list_prompts,
looks each decision up with dict.get(prompt_id, False), executes
rule_actions on a match, and breaks out before the next prompt once a
matched prompt has stop_processing set. The returned trace lists, per
evaluated prompt, its id and the provider calls made for it. -/

def eval_rules (results : List (Int × Bool)) : List Prompt → List (Int × List GmailAction)
  | [] => []
  | p :: rest =>
    if pyDictGet results p.id false then
      (p.id, rule_actions p) :: (if p.stop_processing then [] else eval_rules results rest)
    else
      (p.id, []) :: eval_rules results rest

/-! ## ScanOrchestrator (poller.py _scan_account, lines 59-143)

The network world is an oracle: resp gives the backend outcome of the one
classification request for an email, and exc gives the exception, if any,
raised by the Gmail action calls for an email inside the try of lines
88-135 (the classifier itself catches all of its own failures and cannot
raise). The observable effects of a scan are collected in ScanState. -/

structure ScanEnv where
  resp : Email → BackendResponse
  exc : Email → Option String

structure ScanState where
  processed : List (Int × String)
  classified : List String
  evaluated : List (String × Int)
  actions : List (String × GmailAction)
  errorLogs : Nat
  requests : Nat
deriving Repr, DecidableEq

/-- Embeds one iteration of the email loop (poller.py lines 87-138): the
email is classified (line 90, one backend request), then either the rule
loop runs to completion, or the provider raises and the except at line 134
logs one ERROR; in both cases line 138 then marks the email processed. -/
def scan_email (aid : Int) (prompts : List Prompt) (env : ScanEnv)
    (st : ScanState) (e : Email) : ScanState :=
  let cls := classify_email_batch e prompts (env.resp e)
  match env.exc e with
  | some _ =>
    { processed := mark_processed st.processed aid e.id
      classified := st.classified ++ [e.id]
      evaluated := st.evaluated
      actions := st.actions
      errorLogs := st.errorLogs + 1
      requests := st.requests + cls.2 }
  | none =>
    let evs := eval_rules cls.1 prompts
    { processed := mark_processed st.processed aid e.id
      classified := st.classified ++ [e.id]
      evaluated := st.evaluated ++ evs.map (fun pe => (e.id, pe.1))
      actions := st.actions ++ evs.flatMap (fun pe => pe.2.map (fun a => (e.id, a)))
      errorLogs := st.errorLogs
      requests := st.requests + cls.2 }

/-- Embeds the filter at poller.py line 68: fetched emails not already in
the processed_emails table for this account. -/
def new_emails (aid : Int) (ps : List (Int × String)) (emails : List Email) : List Email :=
  emails.filter (fun e => !is_processed ps aid e.id)

/-- Embeds the email loop of _scan_account (poller.py lines 87-138) run over
the new emails of one account, starting from the processed_emails table ps.
Label-cache prefetching (lines 77-83) is modelled separately below, since it
touches only the provider, not this state. -/
def scan_account (aid : Int) (prompts : List Prompt) (env : ScanEnv)
    (emails : List Email) (ps : List (Int × String)) : ScanState :=
  (new_emails aid ps emails).foldl (scan_email aid prompts env)
    { processed := ps, classified := [], evaluated := [], actions := [],
      errorLogs := 0, requests := 0 }

/-! ## Label cache prefetch (poller.py lines 77-83, gmail_client.py 53-66) -/

/-- A Gmail label-management call. -/
inductive LabelCall where
  | listLabels
  | createLabel (name : String)
deriving Repr, DecidableEq

/-- True exactly on the label-listing call. -/
def isListCall : LabelCall → Bool
  | .listLabels => true
  | _ => false

/-- Embeds gmail_client.get_or_create_label (lines 53-66): it lists ALL
labels of the account on every invocation (line 54), returns the id of a
case-insensitive name match, and otherwise creates the label. The provider
state is the (name, id) label table; mkId models the provider assigning an
opaque id to a created label. Returns ((label id, new provider state),
the provider calls made). -/
def get_or_create_label (provider : List (String × String)) (mkId : String → String)
    (name : String) : (String × List (String × String)) × List LabelCall :=
  match provider.find? (fun l => l.1.toLower == name.toLower) with
  | some l => ((l.2, provider), [LabelCall.listLabels])
  | none =>
    let lid := mkId name
    ((lid, provider ++ [(name, lid)]), [LabelCall.listLabels, LabelCall.createLabel name])

structure PrefetchState where
  cache : List (String × String)
  provider : List (String × String)
  calls : List LabelCall

/-- One iteration of the prefetch loop at poller.py lines 79-83: the
label name is looked up in the cache by exact (case-sensitive) dict key;
on a miss, get_or_create_label runs and the result is cached. -/
def prefetch_step (mkId : String → String) (st : PrefetchState) (p : Prompt) :
    PrefetchState :=
  if (st.cache.find? (fun kv => kv.1 == p.label_name)).isSome then st
  else
    let r := get_or_create_label st.provider mkId p.label_name
    { cache := st.cache ++ [(p.label_name, r.1.1)]
      provider := r.1.2
      calls := st.calls ++ r.2 }

/-- Embeds the cache prefetch pass of poller.py lines 77-83 over the
prompt list of the account, starting from an empty cache. -/
def prefetch_label_cache (mkId : String → String) (provider : List (String × String))
    (prompts : List Prompt) : PrefetchState :=
  prompts.foldl (prefetch_step mkId) ⟨[], provider, []⟩

/-- The distinct label names of the prompts not already among keys, kept in
first-occurrence order. -/
def distinct_new_names (keys : List String) : List Prompt → List String
  | [] => []
  | p :: rest =>
    if keys.any (fun k => k == p.label_name) then distinct_new_names keys rest
    else p.label_name :: distinct_new_names (keys ++ [p.label_name]) rest

/-! ## Scheduler (poller.py lines 28-39) and settings (db.py, config.py)

The poller module owns no lock of any kind: run_now (lines 28-29) starts a
fresh thread executing _scan_all_accounts unconditionally, and each
iteration of _loop (lines 34-38) invokes _scan_all_accounts directly. The
state below counts scan bodies currently executing and skip log lines; no
transition of the module can produce a skip log, because no such code path
exists in the source. -/

structure PollerState where
  runningScans : Nat
  skipLogs : Nat
deriving Repr, DecidableEq

/-- Embeds poller.run_now (lines 28-29): unconditionally spawn a thread
running the scan body; nothing is checked, dropped or logged. -/
def run_now (s : PollerState) : PollerState :=
  { s with runningScans := s.runningScans + 1 }

/-- Embeds one tick of poller._loop (line 35): the scan body is entered
unconditionally; nothing is checked, dropped or logged. -/
def loop_tick (s : PollerState) : PollerState :=
  { s with runningScans := s.runningScans + 1 }

/-- The Python-level configuration constants (config.py): resolved from
environment variables once, at process import time. -/
structure Config where
  POLL_INTERVAL : Int
deriving Repr, DecidableEq

/-- Embeds db.get_setting (db.py lines 98-101): the value of the settings
row with this key, or the default when no row exists. -/
def get_setting (settings : List (String × String)) (key : String)
    (dflt : Option String) : Option String :=
  match settings.find? (fun kv => kv.1 == key) with
  | some kv => some kv.2
  | none => dflt

/-- Embeds the interval selection of poller._loop (line 36): the statement
is interval = POLL_INTERVAL, the module constant from config.py line 12.
The persisted settings table is passed here to express that the code never
consults it. -/
def loop_interval (cfg : Config) (settings : List (String × String)) : Int :=
  cfg.POLL_INTERVAL

/-! ## Trace views of the email loop -/

/-- The (email id, prompt id) pairs evaluated for one email: none when the
provider raised for this email, otherwise the pairs visited by eval_rules. -/
def contrib_eval (prompts : List Prompt) (env : ScanEnv) (e : Email) :
    List (String × Int) :=
  match env.exc e with
  | some _ => []
  | none =>
    (eval_rules (classify_email_batch e prompts (env.resp e)).1 prompts).map
      (fun pe => (e.id, pe.1))

/-- The provider calls applied for one email, tagged with the email id. -/
def contrib_actions (prompts : List Prompt) (env : ScanEnv) (e : Email) :
    List (String × GmailAction) :=
  match env.exc e with
  | some _ => []
  | none =>
    (eval_rules (classify_email_batch e prompts (env.resp e)).1 prompts).flatMap
      (fun pe => pe.2.map (fun a => (e.id, a)))

/-- Marking every email of a list processed, in order. -/
def mark_all (aid : Int) (l : List Email) (ps : List (Int × String)) :
    List (Int × String) :=
  l.foldl (fun acc e => mark_processed acc aid e.id) ps

/-! ## Sample values used by the concrete witnesses -/

def sampleEmail : Email := ⟨"m1", "subj", "sender", "snip", "body"⟩

def sampleEmail2 : Email := ⟨"m2", "subj2", "sender2", "snip2", "body2"⟩

def sampleRule : Prompt :=
  ⟨1, "Newsletters", "match newsletters", "Newsletter", true, false, false, false, 0,
    false, none⟩

def ruleStopA : Prompt :=
  ⟨1, "A", "ia", "LA", true, false, false, false, 0, true, none⟩

def ruleB : Prompt :=
  ⟨2, "B", "ib", "LB", true, false, false, false, 1, false, none⟩

def sampleEnv : ScanEnv := ⟨fun _ => BackendResponse.failure, fun _ => none⟩

def malformedEnv : ScanEnv :=
  ⟨fun _ => BackendResponse.malformed,
   fun e => if e.id == "m2" then some "boom" else none⟩

/-! ## Helper lemmas on the processed set -/

theorem is_processed_mark_mono (ps : List (Int × String)) (aid aid2 : Int)
    (mid mid2 : String) (h : is_processed ps aid mid = true) :
    is_processed (mark_processed ps aid2 mid2) aid mid = true := by
  unfold mark_processed
  by_cases hc : is_processed ps aid2 mid2 = true
  · simp [hc, h]
  · rw [if_neg hc]
    simp only [is_processed, List.any_append] at h ⊢
    simp [h]

theorem is_processed_mark_self (ps : List (Int × String)) (aid : Int) (mid : String) :
    is_processed (mark_processed ps aid mid) aid mid = true := by
  unfold mark_processed
  by_cases hc : is_processed ps aid mid = true
  · simp [hc]
  · rw [if_neg hc]
    simp [is_processed, List.any_append]

theorem mark_all_mono (aid : Int) (l : List Email) (ps : List (Int × String))
    (aid2 : Int) (mid : String) (h : is_processed ps aid2 mid = true) :
    is_processed (mark_all aid l ps) aid2 mid = true := by
  induction l generalizing ps with
  | nil => simpa [mark_all] using h
  | cons e l ih =>
    simp only [mark_all, List.foldl_cons]
    exact ih _ (is_processed_mark_mono _ _ _ _ _ h)

theorem mark_all_mem (aid : Int) (l : List Email) (ps : List (Int × String))
    (e : Email) (h : e ∈ l) :
    is_processed (mark_all aid l ps) aid e.id = true := by
  induction l generalizing ps with
  | nil => cases h
  | cons x l ih =>
    simp only [mark_all, List.foldl_cons]
    rcases List.mem_cons.mp h with rfl | hmem
    · exact mark_all_mono _ _ _ _ _ (is_processed_mark_self _ _ _)
    · exact ih _ hmem

/-! ## Helper lemmas on the per-field behavior of scan_email -/

theorem scan_email_processed (aid : Int) (prompts : List Prompt) (env : ScanEnv)
    (st : ScanState) (e : Email) :
    (scan_email aid prompts env st e).processed = mark_processed st.processed aid e.id := by
  unfold scan_email
  cases h : env.exc e <;> simp [h]

theorem scan_email_classified (aid : Int) (prompts : List Prompt) (env : ScanEnv)
    (st : ScanState) (e : Email) :
    (scan_email aid prompts env st e).classified = st.classified ++ [e.id] := by
  unfold scan_email
  cases h : env.exc e <;> simp [h]

theorem scan_email_evaluated (aid : Int) (prompts : List Prompt) (env : ScanEnv)
    (st : ScanState) (e : Email) :
    (scan_email aid prompts env st e).evaluated
      = st.evaluated ++ contrib_eval prompts env e := by
  unfold scan_email contrib_eval
  cases h : env.exc e <;> simp [h]

theorem scan_email_actions (aid : Int) (prompts : List Prompt) (env : ScanEnv)
    (st : ScanState) (e : Email) :
    (scan_email aid prompts env st e).actions
      = st.actions ++ contrib_actions prompts env e := by
  unfold scan_email contrib_actions
  cases h : env.exc e <;> simp [h]

theorem scan_email_errorLogs (aid : Int) (prompts : List Prompt) (env : ScanEnv)
    (st : ScanState) (e : Email) :
    (scan_email aid prompts env st e).errorLogs
      = st.errorLogs + (if (env.exc e).isSome then 1 else 0) := by
  unfold scan_email
  cases h : env.exc e <;> simp [h]

theorem scan_email_requests (aid : Int) (prompts : List Prompt) (env : ScanEnv)
    (st : ScanState) (e : Email) :
    (scan_email aid prompts env st e).requests
      = st.requests + (classify_email_batch e prompts (env.resp e)).2 := by
  unfold scan_email
  cases h : env.exc e <;> simp [h]

/-! ## Fold specifications of the email loop -/

theorem scan_foldl_processed (aid : Int) (prompts : List Prompt) (env : ScanEnv)
    (l : List Email) (st : ScanState) :
    (l.foldl (scan_email aid prompts env) st).processed = mark_all aid l st.processed := by
  induction l generalizing st with
  | nil => simp [mark_all]
  | cons e l ih =>
    simp only [List.foldl_cons, mark_all]
    rw [ih]
    simp [mark_all, scan_email_processed]

theorem scan_foldl_classified (aid : Int) (prompts : List Prompt) (env : ScanEnv)
    (l : List Email) (st : ScanState) :
    (l.foldl (scan_email aid prompts env) st).classified
      = st.classified ++ l.map (fun e => e.id) := by
  induction l generalizing st with
  | nil => simp
  | cons e l ih =>
    simp only [List.foldl_cons]
    rw [ih]
    simp [scan_email_classified]

theorem scan_foldl_evaluated (aid : Int) (prompts : List Prompt) (env : ScanEnv)
    (l : List Email) (st : ScanState) :
    (l.foldl (scan_email aid prompts env) st).evaluated
      = st.evaluated ++ l.flatMap (contrib_eval prompts env) := by
  induction l generalizing st with
  | nil => simp
  | cons e l ih =>
    simp only [List.foldl_cons, List.flatMap_cons]
    rw [ih]
    simp [scan_email_evaluated]

theorem scan_foldl_actions (aid : Int) (prompts : List Prompt) (env : ScanEnv)
    (l : List Email) (st : ScanState) :
    (l.foldl (scan_email aid prompts env) st).actions
      = st.actions ++ l.flatMap (contrib_actions prompts env) := by
  induction l generalizing st with
  | nil => simp
  | cons e l ih =>
    simp only [List.foldl_cons, List.flatMap_cons]
    rw [ih]
    simp [scan_email_actions]

theorem scan_foldl_errorLogs (aid : Int) (prompts : List Prompt) (env : ScanEnv)
    (l : List Email) (st : ScanState) :
    (l.foldl (scan_email aid prompts env) st).errorLogs
      = st.errorLogs + l.countP (fun e => (env.exc e).isSome) := by
  induction l generalizing st with
  | nil => simp
  | cons e l ih =>
    simp only [List.foldl_cons, List.countP_cons]
    rw [ih]
    rw [scan_email_errorLogs]
    by_cases h : (env.exc e).isSome <;> simp [h] <;> omega

theorem scan_foldl_requests (aid : Int) (prompts : List Prompt) (env : ScanEnv)
    (l : List Email) (st : ScanState) :
    (l.foldl (scan_email aid prompts env) st).requests
      = st.requests + (l.map (fun e => (classify_email_batch e prompts (env.resp e)).2)).sum := by
  induction l generalizing st with
  | nil => simp
  | cons e l ih =>
    simp only [List.foldl_cons, List.map_cons, List.sum_cons]
    rw [ih]
    rw [scan_email_requests]
    omega

/-! ## Helper lemmas on decision lookup and the rule loop -/

theorem pyDictGet_all_false (m : List (Int × Bool)) (k : Int)
    (h : ∀ kv ∈ m, kv.2 = false) : pyDictGet m k false = false := by
  unfold pyDictGet
  cases hl : (m.filter (fun kv => kv.1 == k)).getLast? with
  | none => simp
  | some kv =>
    simp only
    exact h kv (List.mem_of_mem_filter (List.mem_of_mem_getLast? hl))

theorem pyDictGet_not_mem (m : List (Int × Bool)) (k : Int)
    (h : k ∉ m.map Prod.fst) : pyDictGet m k false = false := by
  have hfil : m.filter (fun kv => kv.1 == k) = [] := by
    rw [List.filter_eq_nil_iff]
    intro kv hkv
    simp only [beq_iff_eq]
    intro heq
    exact h (heq ▸ List.mem_map_of_mem Prod.fst hkv)
  simp [pyDictGet, hfil]

theorem default_decisions_false (prompts : List Prompt) :
    ∀ kv ∈ default_decisions prompts, kv.2 = false := by
  intro kv hkv
  simp only [default_decisions, List.mem_map] at hkv
  obtain ⟨p, _, rfl⟩ := hkv
  rfl

theorem eval_rules_all_false (res : List (Int × Bool)) (ps : List Prompt)
    (h : ∀ kv ∈ res, kv.2 = false) :
    eval_rules res ps = ps.map (fun p => (p.id, ([] : List GmailAction))) := by
  induction ps with
  | nil => rfl
  | cons p rest ih =>
    have hz : pyDictGet res p.id false = false := pyDictGet_all_false _ _ h
    simp [eval_rules, hz, ih]

theorem eval_rules_fst_take (res : List (Int × Bool)) (ps : List Prompt) :
    ∃ k, (eval_rules res ps).map Prod.fst = (ps.map (fun p => p.id)).take k := by
  induction ps with
  | nil => exact ⟨0, rfl⟩
  | cons p rest ih =>
    cases hm : pyDictGet res p.id false with
    | false =>
      obtain ⟨k, hk⟩ := ih
      exact ⟨k + 1, by simp [eval_rules, hm, hk]⟩
    | true =>
      cases hs : p.stop_processing with
      | true => exact ⟨1, by simp [eval_rules, hm, hs]⟩
      | false =>
        obtain ⟨k, hk⟩ := ih
        exact ⟨k + 1, by simp [eval_rules, hm, hs, hk]⟩

theorem eval_rules_stop_not_after (res : List (Int × Bool)) :
    ∀ (xs : List Prompt) (p : Prompt) (ys : List Prompt) (q : Prompt),
      ((xs ++ p :: ys).map (fun r => r.id)).Nodup →
      pyDictGet res p.id false = true →
      p.stop_processing = true →
      q ∈ ys →
      ∀ entry ∈ eval_rules res (xs ++ p :: ys), entry.1 ≠ q.id := by
  intro xs
  induction xs with
  | nil =>
    intro p ys q hnd hm hs hq entry hentry
    simp only [List.nil_append, List.map_cons, List.nodup_cons] at hnd
    simp only [List.nil_append, eval_rules, hm, if_true, hs] at hentry
    simp only [List.mem_singleton] at hentry
    subst hentry
    show p.id ≠ q.id
    intro hcontra
    have hqmem : q.id ∈ ys.map (fun r => r.id) :=
      List.mem_map_of_mem (fun r => r.id) hq
    rw [← hcontra] at hqmem
    exact hnd.1 hqmem
  | cons x xs ih =>
    intro p ys q hnd hm hs hq entry hentry
    have hndt : ((xs ++ p :: ys).map (fun r => r.id)).Nodup := by
      simp only [List.cons_append, List.map_cons, List.nodup_cons] at hnd
      exact hnd.2
    have hxq : x.id ≠ q.id := by
      simp only [List.cons_append, List.map_cons, List.nodup_cons] at hnd
      intro hcontra
      have hqmem : q.id ∈ (xs ++ p :: ys).map (fun r => r.id) :=
        List.mem_map_of_mem (fun r => r.id)
          (List.mem_append_right xs (List.mem_cons_of_mem p hq))
      rw [← hcontra] at hqmem
      exact hnd.1 hqmem
    rw [List.cons_append] at hentry
    cases hx : pyDictGet res x.id false with
    | false =>
      simp only [eval_rules, hx, if_false] at hentry
      rcases List.mem_cons.mp hentry with rfl | htail
      · exact hxq
      · exact ih p ys q hndt hm hs hq entry htail
    | true =>
      cases hxs : x.stop_processing with
      | true =>
        simp only [eval_rules, hx, if_true, hxs] at hentry
        simp only [List.mem_singleton] at hentry
        subst hentry
        exact hxq
      | false =>
        simp only [eval_rules, hx, if_true, hxs] at hentry
        rcases List.mem_cons.mp hentry with rfl | htail
        · exact hxq
        · exact ih p ys q hndt hm hs hq entry htail

/-! ## Helper lemmas on the classifier -/

theorem classify_requests_one (e : Email) (prompts : List Prompt)
    (resp : BackendResponse) (h : prompts ≠ []) :
    (classify_email_batch e prompts resp).2 = 1 := by
  have hne : prompts.isEmpty = false := by
    cases prompts with
    | nil => exact absurd rfl h
    | cons a l => rfl
  unfold classify_email_batch
  rw [hne]
  cases resp with
  | failure => rfl
  | malformed => rfl
  | parsed j => simp only [Bool.false_eq_true, if_false]; cases parse_decisions j <;> rfl

theorem classify_failure_default (e : Email) (prompts : List Prompt)
    (h : prompts ≠ []) :
    (classify_email_batch e prompts .failure).1 = default_decisions prompts := by
  have hne : prompts.isEmpty = false := by
    cases prompts with
    | nil => exact absurd rfl h
    | cons a l => rfl
  simp [classify_email_batch, hne]

theorem classify_malformed_default (e : Email) (prompts : List Prompt)
    (h : prompts ≠ []) :
    (classify_email_batch e prompts .malformed).1 = default_decisions prompts := by
  have hne : prompts.isEmpty = false := by
    cases prompts with
    | nil => exact absurd rfl h
    | cons a l => rfl
  simp [classify_email_batch, hne]

/-- All values of the decision map of a classify call on malformed content
are false, including for the empty prompt list (empty map). -/
theorem classify_malformed_all_false (e : Email) (prompts : List Prompt) :
    ∀ kv ∈ (classify_email_batch e prompts .malformed).1, kv.2 = false := by
  cases prompts with
  | nil => intro kv hkv; simp [classify_email_batch] at hkv
  | cons p rest =>
    intro kv hkv
    rw [classify_malformed_default e (p :: rest) (List.cons_ne_nil p rest)] at hkv
    exact default_decisions_false _ kv hkv

/-! ## Helper lemmas on the label-cache prefetch -/

theorem get_or_create_label_listing (provider : List (String × String))
    (mkId : String → String) (name : String) :
    ((get_or_create_label provider mkId name).2.countP isListCall) = 1 := by
  unfold get_or_create_label
  cases hf : provider.find? (fun l => l.1.toLower == name.toLower) with
  | none => simp [List.countP_cons, isListCall]
  | some l => simp [List.countP_cons, isListCall]

theorem find_isSome_eq_any (cache : List (String × String)) (n : String) :
    (cache.find? (fun kv => kv.1 == n)).isSome
      = (cache.map Prod.fst).any (fun k => k == n) := by
  induction cache with
  | nil => rfl
  | cons kv rest ih =>
    simp only [List.map_cons, List.any_cons]
    cases h : (kv.1 == n) with
    | true => simp [List.find?_cons_of_pos, h]
    | false => simp [List.find?_cons_of_neg, h, ih]

theorem prefetch_step_hit (mkId : String → String) (st : PrefetchState) (p : Prompt)
    (h : (st.cache.find? (fun kv => kv.1 == p.label_name)).isSome = true) :
    prefetch_step mkId st p = st := by
  unfold prefetch_step
  rw [if_pos h]

theorem prefetch_step_miss_calls (mkId : String → String) (st : PrefetchState)
    (p : Prompt)
    (h : (st.cache.find? (fun kv => kv.1 == p.label_name)).isSome = false) :
    (prefetch_step mkId st p).calls
      = st.calls ++ (get_or_create_label st.provider mkId p.label_name).2 := by
  unfold prefetch_step
  rw [if_neg (by simp [h])]

theorem prefetch_step_miss_keys (mkId : String → String) (st : PrefetchState)
    (p : Prompt)
    (h : (st.cache.find? (fun kv => kv.1 == p.label_name)).isSome = false) :
    (prefetch_step mkId st p).cache.map Prod.fst
      = st.cache.map Prod.fst ++ [p.label_name] := by
  unfold prefetch_step
  rw [if_neg (by simp [h])]
  simp

theorem prefetch_foldl_calls_count (mkId : String → String) :
    ∀ (prompts : List Prompt) (st : PrefetchState),
      ((prompts.foldl (prefetch_step mkId) st).calls.countP isListCall)
        = st.calls.countP isListCall
          + (distinct_new_names (st.cache.map Prod.fst) prompts).length := by
  intro prompts
  induction prompts with
  | nil => intro st; simp [distinct_new_names]
  | cons p rest ih =>
    intro st
    simp only [List.foldl_cons, distinct_new_names]
    cases hc : (st.cache.map Prod.fst).any (fun k => k == p.label_name) with
    | true =>
      have hfind : (st.cache.find? (fun kv => kv.1 == p.label_name)).isSome = true := by
        rw [find_isSome_eq_any]; exact hc
      rw [prefetch_step_hit mkId st p hfind, ih st]
      simp [hc]
    | false =>
      have hfind : (st.cache.find? (fun kv => kv.1 == p.label_name)).isSome = false := by
        rw [find_isSome_eq_any]; exact hc
      rw [ih (prefetch_step mkId st p)]
      rw [prefetch_step_miss_calls mkId st p hfind,
        prefetch_step_miss_keys mkId st p hfind]
      rw [List.countP_append, get_or_create_label_listing]
      simp
      omega

theorem prefetch_foldl_keys (mkId : String → String) :
    ∀ (prompts : List Prompt) (st : PrefetchState),
      ((prompts.foldl (prefetch_step mkId) st).cache.map Prod.fst)
        = st.cache.map Prod.fst ++ distinct_new_names (st.cache.map Prod.fst) prompts := by
  intro prompts
  induction prompts with
  | nil => intro st; simp [distinct_new_names]
  | cons p rest ih =>
    intro st
    simp only [List.foldl_cons, distinct_new_names]
    cases hc : (st.cache.map Prod.fst).any (fun k => k == p.label_name) with
    | true =>
      have hfind : (st.cache.find? (fun kv => kv.1 == p.label_name)).isSome = true := by
        rw [find_isSome_eq_any]; exact hc
      rw [prefetch_step_hit mkId st p hfind, ih st]
      simp [hc]
    | false =>
      have hfind : (st.cache.find? (fun kv => kv.1 == p.label_name)).isSome = false := by
        rw [find_isSome_eq_any]; exact hc
      rw [ih (prefetch_step mkId st p), prefetch_step_miss_keys mkId st p hfind]
      simp [hc]

theorem mem_keys_or_distinct :
    ∀ (prompts : List Prompt) (keys : List String) (p : Prompt), p ∈ prompts →
      p.label_name ∈ keys ∨ p.label_name ∈ distinct_new_names keys prompts := by
  intro prompts
  induction prompts with
  | nil => intro keys p h; cases h
  | cons x rest ih =>
    intro keys p h
    rcases List.mem_cons.mp h with rfl | hmem
    · cases hc : keys.any (fun k => k == p.label_name) with
      | true =>
        left
        obtain ⟨k, hk, hbeq⟩ := List.any_eq_true.mp hc
        rwa [← (beq_iff_eq.mp hbeq)]
      | false =>
        right
        simp [distinct_new_names, hc]
    · cases hc : keys.any (fun k => k == x.label_name) with
      | true =>
        rcases ih keys p hmem with hk | hd
        · exact Or.inl hk
        · right; simp [distinct_new_names, hc, hd]
      | false =>
        rcases ih (keys ++ [x.label_name]) p hmem with hk | hd
        · rcases List.mem_append.mp hk with hk1 | hk2
          · exact Or.inl hk1
          · right
            simp only [List.mem_singleton] at hk2
            simp [distinct_new_names, hc, hk2]
        · right; simp [distinct_new_names, hc, hd]

theorem distinct_new_names_length_le :
    ∀ (prompts : List Prompt) (keys : List String),
      (distinct_new_names keys prompts).length ≤ prompts.length := by
  intro prompts
  induction prompts with
  | nil => intro keys; simp [distinct_new_names]
  | cons p rest ih =>
    intro keys
    simp only [distinct_new_names, List.length_cons]
    cases hc : keys.any (fun k => k == p.label_name) with
    | true =>
      simp only [if_pos rfl]
      exact Nat.le_succ_of_le (ih keys)
    | false =>
      rw [if_neg (by simp)]
      simp only [List.length_cons]
      exact Nat.succ_le_succ (ih _)

/-! ## Helper lemmas on the rule ordering -/

theorem list_prompts_sorted (table : List Prompt) (aid : Int) :
    List.Pairwise promptLEP (list_prompts table aid) :=
  List.sorted_insertionSort promptLEP
    (table.filter (fun p => p.account_id == some aid || p.account_id == none))

theorem active_prompts_sorted (table : List Prompt) (aid : Int) :
    List.Pairwise promptLEP (active_prompts table aid) :=
  List.Pairwise.sublist (List.filter_sublist _) (list_prompts_sorted table aid)

/-! ## Remaining small helpers -/

theorem sum_map_one {α : Type} (l : List α) (f : α → Nat)
    (h : ∀ a ∈ l, f a = 1) : (l.map f).sum = l.length := by
  induction l with
  | nil => rfl
  | cons x xs ih =>
    simp only [List.map_cons, List.sum_cons, List.length_cons]
    rw [h x (List.mem_cons_self x xs), ih (fun a ha => h a (List.mem_cons_of_mem x ha))]
    omega

theorem contrib_actions_fst (prompts : List Prompt) (env : ScanEnv) (e : Email) :
    ∀ entry ∈ contrib_actions prompts env e, entry.1 = e.id := by
  unfold contrib_actions
  cases hx : env.exc e with
  | some m => intro entry hent; simp at hent
  | none =>
    intro entry hent
    simp only [List.mem_flatMap, List.mem_map] at hent
    obtain ⟨pe, hpe, a, ha, rfl⟩ := hent
    rfl

theorem contrib_actions_malformed (prompts : List Prompt) (env : ScanEnv) (e : Email)
    (hexc : env.exc e = none) (hresp : env.resp e = BackendResponse.malformed) :
    contrib_actions prompts env e = [] := by
  unfold contrib_actions
  rw [hexc, hresp]
  rw [eval_rules_all_false _ _ (classify_malformed_all_false e prompts)]
  rw [List.flatMap_eq_nil_iff]
  intro pe hpe
  obtain ⟨p, hp, rfl⟩ := List.mem_map.mp hpe
  rfl

/-! # Claim theorems -/

/-- C1 (counterexample): two back-to-back scan triggers from the idle state
leave TWO scan bodies running and zero skip log lines, refuting the claim
that exactly one scan body runs while the other is dropped with a logged
skip: run_now (poller.py lines 28-29) spawns a scan thread unconditionally
and the module holds no lock at all. -/
theorem C1_counterexample :
    (run_now (run_now { runningScans := 0, skipLogs := 0 })).runningScans = 2 ∧
    (run_now (run_now { runningScans := 0, skipLogs := 0 })).skipLogs = 0 :=
  ⟨rfl, rfl⟩

/-- C1 (amended): there is no scan lock; every trigger, whether a loop tick
or a run_now request, unconditionally starts another scan body, and no
trigger is ever dropped or logged as a skip. -/
theorem C1_no_lock_every_trigger_runs (s : PollerState) :
    (run_now s).runningScans = s.runningScans + 1 ∧
    (run_now s).skipLogs = s.skipLogs ∧
    (loop_tick s).runningScans = s.runningScans + 1 ∧
    (loop_tick s).skipLogs = s.skipLogs :=
  ⟨rfl, rfl, rfl, rfl⟩

/-- C2: once the pair (account id, message id) is in the processed table, a
scan never hands that message id to the classifier again, for any rule set
and any backend behavior; the pair is still in the table after the scan
(so the same holds for every later cycle); and re-marking an
already-present pair leaves the table unchanged (insert-if-absent). -/
theorem C2_processed_never_reclassified (aid : Int) (mid : String)
    (P : List (Int × String)) (prompts : List Prompt) (env : ScanEnv)
    (emails : List Email) (h : is_processed P aid mid = true) :
    mid ∉ (scan_account aid prompts env emails P).classified ∧
    is_processed (scan_account aid prompts env emails P).processed aid mid = true ∧
    mark_processed P aid mid = P := by
  refine ⟨?_, ?_, ?_⟩
  · unfold scan_account
    rw [scan_foldl_classified]
    simp only [List.nil_append]
    intro hmem
    obtain ⟨e, he, heq⟩ := List.mem_map.mp hmem
    have hfil : (!is_processed P aid e.id) = true := by
      have he2 : e ∈ emails.filter (fun e2 => !is_processed P aid e2.id) := by
        simpa [new_emails] using he
      exact (List.mem_filter.mp he2).2
    rw [heq, h] at hfil
    simp at hfil
  · unfold scan_account
    rw [scan_foldl_processed]
    exact mark_all_mono _ _ _ _ _ h
  · simp [mark_processed, h]

/-- C2 witness: concrete instantiation at account 1, message m1 already
processed. -/
theorem C2_witness :
    "m1" ∉ (scan_account 1 [] sampleEnv [sampleEmail] [(1, "m1")]).classified ∧
    is_processed (scan_account 1 [] sampleEnv [sampleEmail] [(1, "m1")]).processed
      1 "m1" = true ∧
    mark_processed [(1, "m1")] 1 "m1" = [(1, "m1")] :=
  C2_processed_never_reclassified 1 "m1" [(1, "m1")] [] sampleEnv [sampleEmail]
    (by decide)

/-- C3: with a non-empty rule set, a failed request and malformed content
both make the classifier return false for every rule, and any id absent
from a decision map reads as false through the dict.get default the
orchestrator uses. -/
theorem C3_degrade_to_no_match (e : Email) (prompts : List Prompt)
    (hne : prompts ≠ []) :
    (∀ p ∈ prompts,
      pyDictGet (classify_email_batch e prompts .failure).1 p.id false = false) ∧
    (∀ p ∈ prompts,
      pyDictGet (classify_email_batch e prompts .malformed).1 p.id false = false) ∧
    (∀ (m : List (Int × Bool)) (i : Int),
      i ∉ m.map Prod.fst → pyDictGet m i false = false) := by
  refine ⟨?_, ?_, ?_⟩
  · intro p hp
    rw [classify_failure_default e prompts hne]
    exact pyDictGet_all_false _ _ (default_decisions_false prompts)
  · intro p hp
    rw [classify_malformed_default e prompts hne]
    exact pyDictGet_all_false _ _ (default_decisions_false prompts)
  · intro m i him
    exact pyDictGet_not_mem m i him

/-- C3 witness: concrete instantiation at one sample rule. -/
theorem C3_witness :
    (∀ p ∈ [sampleRule],
      pyDictGet (classify_email_batch sampleEmail [sampleRule] .failure).1
        p.id false = false) ∧
    (∀ p ∈ [sampleRule],
      pyDictGet (classify_email_batch sampleEmail [sampleRule] .malformed).1
        p.id false = false) ∧
    (∀ (m : List (Int × Bool)) (i : Int),
      i ∉ m.map Prod.fst → pyDictGet m i false = false) :=
  C3_degrade_to_no_match sampleEmail [sampleRule] (List.cons_ne_nil _ _)

/-- C4: the rule list an account scan evaluates is sorted ascending by
(sort_order, id); evaluation follows that list order (the evaluated ids are
a prefix of the sorted id list); once a matched rule with stop_processing
is reached, no rule after it in that order is ever evaluated (so its label
and action are never applied); and every new email is still marked
processed. -/
theorem C4_order_and_stop (table : List Prompt) (aid : Int)
    (res : List (Int × Bool)) (xs ys : List Prompt) (p q : Prompt)
    (hnodup : ((active_prompts table aid).map (fun r => r.id)).Nodup)
    (hsplit : active_prompts table aid = xs ++ p :: ys)
    (hmatch : pyDictGet res p.id false = true)
    (hstop : p.stop_processing = true)
    (hq : q ∈ ys) :
    List.Pairwise promptLEP (active_prompts table aid) ∧
    (∃ k, (eval_rules res (active_prompts table aid)).map Prod.fst
        = ((active_prompts table aid).map (fun r => r.id)).take k) ∧
    (∀ entry ∈ eval_rules res (active_prompts table aid), entry.1 ≠ q.id) ∧
    (∀ (env : ScanEnv) (emails : List Email) (P : List (Int × String)) (e : Email),
        e ∈ new_emails aid P emails →
        is_processed
          (scan_account aid (active_prompts table aid) env emails P).processed
          aid e.id = true) := by
  refine ⟨active_prompts_sorted table aid, eval_rules_fst_take res _, ?_, ?_⟩
  · rw [hsplit] at hnodup ⊢
    exact eval_rules_stop_not_after res xs p ys q hnodup hmatch hstop hq
  · intro env emails P e he
    unfold scan_account
    rw [scan_foldl_processed]
    exact mark_all_mem aid _ P e he

/-- C4 witness: rule A (id 1, sort 0, stop_processing) and rule B (id 2,
sort 1), both matched. -/
theorem C4_witness :
    List.Pairwise promptLEP (active_prompts [ruleB, ruleStopA] 7) ∧
    (∃ k, (eval_rules [(1, true), (2, true)]
          (active_prompts [ruleB, ruleStopA] 7)).map Prod.fst
        = ((active_prompts [ruleB, ruleStopA] 7).map (fun r => r.id)).take k) ∧
    (∀ entry ∈ eval_rules [(1, true), (2, true)] (active_prompts [ruleB, ruleStopA] 7),
        entry.1 ≠ ruleB.id) ∧
    (∀ (env : ScanEnv) (emails : List Email) (P : List (Int × String)) (e : Email),
        e ∈ new_emails 7 P emails →
        is_processed
          (scan_account 7 (active_prompts [ruleB, ruleStopA] 7) env emails P).processed
          7 e.id = true) :=
  C4_order_and_stop [ruleB, ruleStopA] 7 [(1, true), (2, true)] [] [ruleB]
    ruleStopA ruleB (by decide) (by decide) (by decide) (by decide) (by decide)

/-- C5: for a matched rule the provider calls start with the label
application, at most one destructive call follows, the destructive call
present reflects the fixed priority spam over trash over archive, and no
destructive call happens when no flag is set. -/
theorem C5_label_first_one_destructive (p : Prompt) :
    (rule_actions p).head? = some (GmailAction.applyLabel p.label_name) ∧
    ((rule_actions p).filter isDestructive).length ≤ 1 ∧
    ((GmailAction.spam ∈ rule_actions p) ↔ p.action_spam = true) ∧
    ((GmailAction.trash ∈ rule_actions p) ↔
      (p.action_spam = false ∧ p.action_trash = true)) ∧
    ((GmailAction.archive ∈ rule_actions p) ↔
      (p.action_spam = false ∧ p.action_trash = false ∧ p.action_archive = true)) ∧
    ((destructive_actions p = []) ↔
      (p.action_spam = false ∧ p.action_trash = false ∧ p.action_archive = false)) := by
  unfold rule_actions destructive_actions
  cases hs : p.action_spam <;> cases ht : p.action_trash <;>
    cases ha : p.action_archive <;> simp [isDestructive]

/-- C6: an exception while acting on one email is absorbed at the email
boundary: every new email of the scan is classified and marked processed
regardless, each exception produces exactly one ERROR log entry, and an
email whose classifier response was malformed gets zero provider actions
(in particular zero label applications) while still being marked
processed. -/
theorem C6_email_failure_isolation (aid : Int) (prompts : List Prompt)
    (env : ScanEnv) (emails : List Email) (P : List (Int × String)) (e : Email)
    (hmem : e ∈ new_emails aid P emails)
    (hnodup : ((new_emails aid P emails).map (fun e2 => e2.id)).Nodup)
    (hresp : env.resp e = BackendResponse.malformed)
    (hexc : env.exc e = none) :
    (∀ e2 ∈ new_emails aid P emails,
        is_processed (scan_account aid prompts env emails P).processed aid e2.id
          = true ∧
        e2.id ∈ (scan_account aid prompts env emails P).classified) ∧
    ((scan_account aid prompts env emails P).errorLogs
        = (new_emails aid P emails).countP (fun e2 => (env.exc e2).isSome)) ∧
    (∀ a : GmailAction, (e.id, a) ∉ (scan_account aid prompts env emails P).actions) := by
  refine ⟨?_, ?_, ?_⟩
  · intro e2 he2
    constructor
    · unfold scan_account
      rw [scan_foldl_processed]
      exact mark_all_mem _ _ _ _ he2
    · unfold scan_account
      rw [scan_foldl_classified]
      simp only [List.nil_append]
      exact List.mem_map_of_mem (fun x => x.id) he2
  · unfold scan_account
    rw [scan_foldl_errorLogs]
    simp
  · intro a hina
    unfold scan_account at hina
    rw [scan_foldl_actions] at hina
    simp only [List.nil_append, List.mem_flatMap] at hina
    obtain ⟨e2, he2, hin⟩ := hina
    have hfst : e2.id = e.id := (contrib_actions_fst prompts env e2 _ hin).symm
    have he2e : e2 = e := List.inj_on_of_nodup_map hnodup he2 hmem hfst
    rw [he2e, contrib_actions_malformed prompts env e hexc hresp] at hin
    exact List.not_mem_nil _ hin

/-- C6 witness: two new emails, malformed response for the first, provider
exception for the second. -/
theorem C6_witness :
    (∀ e2 ∈ new_emails 1 [] [sampleEmail, sampleEmail2],
        is_processed
          (scan_account 1 [sampleRule] malformedEnv [sampleEmail, sampleEmail2] []).processed
          1 e2.id = true ∧
        e2.id ∈ (scan_account 1 [sampleRule] malformedEnv
          [sampleEmail, sampleEmail2] []).classified) ∧
    ((scan_account 1 [sampleRule] malformedEnv [sampleEmail, sampleEmail2] []).errorLogs
        = (new_emails 1 [] [sampleEmail, sampleEmail2]).countP
            (fun e2 => (malformedEnv.exc e2).isSome)) ∧
    (∀ a : GmailAction,
      (sampleEmail.id, a) ∉
        (scan_account 1 [sampleRule] malformedEnv [sampleEmail, sampleEmail2] []).actions) :=
  C6_email_failure_isolation 1 [sampleRule] malformedEnv [sampleEmail, sampleEmail2]
    [] sampleEmail (by decide) (by decide) rfl rfl

/-- C7: the persisted poll_interval setting is readable (get_setting sees
the new value 60) but the loop interval stays the import-time environment
constant 300 and is insensitive to the settings table altogether, so an
interval change via settings does NOT take effect on the next tick. -/
theorem C7_interval_ignores_settings :
    get_setting [("poll_interval", "60")] "poll_interval" none = some "60" ∧
    loop_interval { POLL_INTERVAL := 300 } [("poll_interval", "60")] = 300 ∧
    (∀ (s1 s2 : List (String × String)) (cfg : Config),
      loop_interval cfg s1 = loop_interval cfg s2) :=
  ⟨rfl, rfl, fun _ _ _ => rfl⟩

/-- C8 (counterexample): with two active rules referencing the two distinct
label names A and B and an empty provider label table, the prefetch pass of
poller.py lines 77-83 issues TWO label-listing calls, not one: each
get_or_create_label call performs its own labels().list() request. -/
theorem C8_counterexample :
    ((prefetch_label_cache (fun n => n) []
        [⟨1, "ra", "ia", "A", true, false, false, false, 0, false, none⟩,
         ⟨2, "rb", "ib", "B", true, false, false, false, 1, false, none⟩]).calls.countP
      isListCall) = 2 := by
  unfold prefetch_label_cache
  rw [prefetch_foldl_calls_count]
  decide

/-- C8 (amended): the cache is built in one pass over the rules that
deduplicates label names, issuing one fetch-or-create call (each with its
own label-listing call) per distinct label name: the number of
label-listing calls equals the number of distinct label names referenced
by the rules, which is at most (not equal to) the number of rules, and the
resulting cache covers every label name referenced. -/
theorem C8_listing_per_distinct_name (mkId : String → String)
    (provider : List (String × String)) (prompts : List Prompt) :
    ((prefetch_label_cache mkId provider prompts).calls.countP isListCall
      = (distinct_new_names [] prompts).length) ∧
    (distinct_new_names [] prompts).length ≤ prompts.length ∧
    (∀ p ∈ prompts,
      p.label_name ∈ (prefetch_label_cache mkId provider prompts).cache.map Prod.fst) := by
  refine ⟨?_, distinct_new_names_length_le prompts [], ?_⟩
  · unfold prefetch_label_cache
    rw [prefetch_foldl_calls_count]
    simp
  · intro p hp
    unfold prefetch_label_cache
    rw [prefetch_foldl_keys]
    rcases mem_keys_or_distinct prompts [] p hp with hk | hd
    · cases hk
    · simpa using hd

/-- C8 amended witness: two rules sharing one label name produce one listing
call; the cache covers the name. -/
theorem C8_listing_witness :
    ((prefetch_label_cache (fun n => n) [] [sampleRule, ruleStopA]).calls.countP
        isListCall
      = (distinct_new_names [] [sampleRule, ruleStopA]).length) ∧
    (distinct_new_names [] [sampleRule, ruleStopA]).length ≤
      ([sampleRule, ruleStopA] : List Prompt).length ∧
    (∀ p ∈ [sampleRule, ruleStopA],
      p.label_name ∈
        (prefetch_label_cache (fun n => n) [] [sampleRule, ruleStopA]).cache.map
          Prod.fst) :=
  C8_listing_per_distinct_name (fun n => n) [] [sampleRule, ruleStopA]

/-- C9: with a non-empty rule set the classifier issues exactly one backend
request per call regardless of the rule count, and over a whole account
scan the number of backend requests equals the number of emails handed to
the classifier. -/
theorem C9_one_request_per_email (e : Email) (prompts : List Prompt)
    (resp : BackendResponse) (aid : Int) (env : ScanEnv) (emails : List Email)
    (P : List (Int × String)) (hne : prompts ≠ []) :
    (classify_email_batch e prompts resp).2 = 1 ∧
    (scan_account aid prompts env emails P).requests
      = (scan_account aid prompts env emails P).classified.length := by
  constructor
  · exact classify_requests_one e prompts resp hne
  · unfold scan_account
    rw [scan_foldl_requests, scan_foldl_classified]
    simp only [List.nil_append, List.length_map, Nat.zero_add]
    exact sum_map_one _ _ (fun e2 _ => classify_requests_one e2 prompts (env.resp e2) hne)

/-- C9 witness: one rule, two emails. -/
theorem C9_witness :
    (classify_email_batch sampleEmail [sampleRule] .failure).2 = 1 ∧
    (scan_account 1 [sampleRule] sampleEnv [sampleEmail, sampleEmail2] []).requests
      = (scan_account 1 [sampleRule] sampleEnv
          [sampleEmail, sampleEmail2] []).classified.length :=
  C9_one_request_per_email sampleEmail [sampleRule] .failure 1 sampleEnv
    [sampleEmail, sampleEmail2] [] (List.cons_ne_nil _ _)

/-- C10: the decode of a parsed response object uses Python truthiness, not
JSON booleans: a value decodes to False exactly when it is falsy (null,
false, 0, empty string, empty array, empty object), and truthy non-boolean
values such as the strings false and no or the number 1 decode as a True
decision for the rule. -/
theorem C10_truthiness_decode :
    (∀ v : Json, pyTruthy v = false ↔
      (v = Json.null ∨ v = Json.bool false ∨ v = Json.num 0 ∨ v = Json.str "" ∨
        v = Json.arr [] ∨ v = Json.obj [])) ∧
    pyDictGet (classify_email_batch sampleEmail [sampleRule]
      (.parsed (.obj [("1", .str "false")]))).1 1 false = true ∧
    pyDictGet (classify_email_batch sampleEmail [sampleRule]
      (.parsed (.obj [("1", .str "no")]))).1 1 false = true ∧
    pyDictGet (classify_email_batch sampleEmail [sampleRule]
      (.parsed (.obj [("1", .num 1)]))).1 1 false = true ∧
    pyDictGet (classify_email_batch sampleEmail [sampleRule]
      (.parsed (.obj [("1", .num 0)]))).1 1 false = false ∧
    pyDictGet (classify_email_batch sampleEmail [sampleRule]
      (.parsed (.obj [("1", .str "")]))).1 1 false = false ∧
    pyDictGet (classify_email_batch sampleEmail [sampleRule]
      (.parsed (.obj [("1", .bool false)]))).1 1 false = false := by
  refine ⟨?_, by decide, by decide, by decide, by decide, by decide, by decide⟩
  intro v
  cases v <;> simp [pyTruthy, bne_eq_false_iff_eq, List.isEmpty_iff]

end Labeler
